import Mathlib

/-!
Verification of the pump.fun token scanner (`scanner.py`).

The Python source is shallowly embedded: Python floats are modelled as exact
rationals (`ℚ`), Python ints as `ℕ` where the call sites only ever supply
non-negative counts/amounts (lengths of lists, on-chain token amounts), and
the JSON metadata blobs as a small inductive `JVal`.  External fetches
(Helius HTTP/RPC calls) are modelled as explicit parameters holding the
fetched data, per the external-interface table of the specification.
-/

namespace Scanner

/-- Scoring weight `WEIGHTS["holders"] = 0.35` (scanner.py line 22). -/
def WEIGHTS_holders : ℚ := 35/100

/-- Scoring weight `WEIGHTS["age"] = 0.25` (scanner.py line 23). -/
def WEIGHTS_age : ℚ := 25/100

/-- Scoring weight `WEIGHTS["dev_holdings"] = 0.25` (scanner.py line 24). -/
def WEIGHTS_dev_holdings : ℚ := 25/100

/-- Scoring weight `WEIGHTS["liquidity"] = 0.15` (scanner.py line 25). -/
def WEIGHTS_liquidity : ℚ := 15/100

/-- `THRESHOLDS["excellent_holders"] = 1000`. -/
def THRESHOLDS_excellent_holders : ℕ := 1000

/-- `THRESHOLDS["good_holders"] = 500`. -/
def THRESHOLDS_good_holders : ℕ := 500

/-- `THRESHOLDS["min_holders"] = 100`. -/
def THRESHOLDS_min_holders : ℕ := 100

/-- `THRESHOLDS["sweet_spot_age_min"] = 24`. -/
def THRESHOLDS_sweet_spot_age_min : ℚ := 24

/-- `THRESHOLDS["sweet_spot_age_max"] = 72`. -/
def THRESHOLDS_sweet_spot_age_max : ℚ := 72

/-- `THRESHOLDS["dev_red_flag"] = 50`. -/
def THRESHOLDS_dev_red_flag : ℚ := 50

/-- `THRESHOLDS["dev_warning"] = 30`. -/
def THRESHOLDS_dev_warning : ℚ := 30

/-- `THRESHOLDS["great_liquidity"] = 50000`. -/
def THRESHOLDS_great_liquidity : ℚ := 50000

/-- `THRESHOLDS["good_liquidity"] = 10000`. -/
def THRESHOLDS_good_liquidity : ℚ := 10000

/-- `THRESHOLDS["min_liquidity"] = 1000`. -/
def THRESHOLDS_min_liquidity : ℚ := 1000

/-- `calculate_holder_score` (scanner.py lines 197-206).  The argument is the
holder count, always `len(largest_accounts)` at the call site, hence `ℕ`. -/
def calculate_holder_score (holder_count : ℕ) : ℚ :=
  if THRESHOLDS_excellent_holders ≤ holder_count then 100
  else if THRESHOLDS_good_holders ≤ holder_count then
    70 + ((holder_count : ℚ) - (THRESHOLDS_good_holders : ℚ))
      / ((THRESHOLDS_excellent_holders : ℚ) - (THRESHOLDS_good_holders : ℚ)) * 30
  else if THRESHOLDS_min_holders ≤ holder_count then
    40 + ((holder_count : ℚ) - (THRESHOLDS_min_holders : ℚ))
      / ((THRESHOLDS_good_holders : ℚ) - (THRESHOLDS_min_holders : ℚ)) * 30
  else ((holder_count : ℚ) / (THRESHOLDS_min_holders : ℚ)) * 40

/-- `calculate_age_score` (scanner.py lines 209-218). -/
def calculate_age_score (age_hours : ℚ) : ℚ :=
  if THRESHOLDS_sweet_spot_age_min ≤ age_hours ∧ age_hours ≤ THRESHOLDS_sweet_spot_age_max then
    100
  else if age_hours < THRESHOLDS_sweet_spot_age_min then
    (age_hours / THRESHOLDS_sweet_spot_age_min) * 100
  else
    max 0 (100 - ((age_hours - THRESHOLDS_sweet_spot_age_max) / 24) * 20)

/-- `calculate_dev_holdings_score` (scanner.py lines 221-228). -/
def calculate_dev_holdings_score (dev_percentage : ℚ) : ℚ :=
  if THRESHOLDS_dev_red_flag ≤ dev_percentage then 0
  else if THRESHOLDS_dev_warning ≤ dev_percentage then
    50 - ((dev_percentage - THRESHOLDS_dev_warning)
      / (THRESHOLDS_dev_red_flag - THRESHOLDS_dev_warning)) * 50
  else 100 - (dev_percentage / THRESHOLDS_dev_warning) * 50

/-- `calculate_liquidity_score` (scanner.py lines 231-240). -/
def calculate_liquidity_score (liquidity : ℚ) : ℚ :=
  if THRESHOLDS_great_liquidity ≤ liquidity then 100
  else if THRESHOLDS_good_liquidity ≤ liquidity then
    70 + (liquidity - THRESHOLDS_good_liquidity)
      / (THRESHOLDS_great_liquidity - THRESHOLDS_good_liquidity) * 30
  else if THRESHOLDS_min_liquidity ≤ liquidity then
    40 + (liquidity - THRESHOLDS_min_liquidity)
      / (THRESHOLDS_good_liquidity - THRESHOLDS_min_liquidity) * 30
  else (liquidity / THRESHOLDS_min_liquidity) * 40

/-- The weighted aggregate of the four sub-scores (scanner.py lines 309-314). -/
def total_score (holder_score age_score dev_score liquidity_score : ℚ) : ℚ :=
  holder_score * WEIGHTS_holders +
  age_score * WEIGHTS_age +
  dev_score * WEIGHTS_dev_holdings +
  liquidity_score * WEIGHTS_liquidity

/-- Risk classification from the aggregate score (scanner.py lines 317-322). -/
def risk_level_of (score : ℚ) : String :=
  if 75 ≤ score then "low"
  else if 50 ≤ score then "medium"
  else "high"

/-- Round-half-to-even on rationals, the rounding mode of Python `round`. -/
def round_half_even (q : ℚ) : ℤ :=
  let f := Rat.floor q
  if q - f < 1/2 then f
  else if 1/2 < q - f then f + 1
  else if f % 2 = 0 then f else f + 1

/-- Python `round(x, 2)` on the exact-rational model of a float. -/
def pyRound2 (q : ℚ) : ℚ := (round_half_even (q * 100) : ℚ) / 100

/-- JSON-like values, the model of the Python metadata blobs handled by
`analyze_token`.  Objects are association lists of string keys. -/
inductive JVal where
  | jnull : JVal
  | jstr : String → JVal
  | jnum : ℚ → JVal
  | jobj : List (String × JVal) → JVal

/-- Python truthiness of a JSON value: `None`, `""`, `0` and `{}` are falsy. -/
def truthy : JVal → Bool
  | .jnull => false
  | .jstr s => !s.isEmpty
  | .jnum q => decide (q ≠ 0)
  | .jobj l => !l.isEmpty

/-- Python `isinstance(v, dict)`. -/
def isObj : JVal → Bool
  | .jobj _ => true
  | _ => false

/-- Python `d.get(k)` on a dict (`None`, i.e. `none`, when the key is absent). -/
def getKey (v : JVal) (k : String) : Option JVal :=
  match v with
  | .jobj l => l.lookup k
  | _ => none

/-- The coercion pattern `x = d.get(k); if not x or not isinstance(x, dict): x = {}`
used at scanner.py lines 251-261. -/
def coerceObj (v : Option JVal) : JVal :=
  match v with
  | some w => if truthy w && isObj w then w else .jobj []
  | none => .jobj []

/-- Python `str(v)` as used on metadata name/symbol values.  String values are
returned as-is; the rendering of the other shapes is abstracted (it is never a
bare word, and no claim depends on it). -/
def pyStr : JVal → String
  | .jnull => "None"
  | .jstr s => s
  | .jnum q => toString q
  | .jobj _ => "dict"

/-- `on_chain` as computed at scanner.py lines 251-253. -/
def on_chain_of (metadata : JVal) : JVal :=
  coerceObj (getKey metadata "onChainMetadata")

/-- `token_info` as computed at scanner.py lines 255-261: the nested
`onChainMetadata.metadata.data` path, each step coerced to a dict. -/
def token_info_of (metadata : JVal) : JVal :=
  coerceObj (getKey (coerceObj (getKey (on_chain_of metadata) "metadata")) "data")

/-- `name = str(token_info.get("name", "Unknown")).strip() if token_info.get("name")
else "Unknown"` (scanner.py line 263). -/
def resolved_name (token_info : JVal) : String :=
  match getKey token_info "name" with
  | some v => if truthy v then (pyStr v).trim else "Unknown"
  | none => "Unknown"

/-- `symbol = str(token_info.get("symbol", "???")).strip() if token_info.get("symbol")
else "???"` (scanner.py line 264). -/
def resolved_symbol (token_info : JVal) : String :=
  match getKey token_info "symbol" with
  | some v => if truthy v then (pyStr v).trim else "???"
  | none => "???"

/-- The `value` object of a `getTokenSupply` RPC response (scanner.py lines
151-171); fields are `none` when the key is absent, amounts are the
non-negative on-chain integer amounts. -/
structure SupplyInfo where
  amount : Option ℕ
  decimals : Option ℕ

/-- One entry of a `getTokenLargestAccounts` RPC response (scanner.py lines
174-194); `amount` is `none` when the key is absent. -/
structure HolderAccount where
  amount : Option ℕ

/-- The external data consumed by one `analyze_token` call: the supply fetch
result (`none` models the empty dict returned on failure), the largest-holder
accounts, and the current wall-clock time `time.time()` in seconds. -/
structure FetchEnv where
  supply : Option SupplyInfo
  largest_accounts : List HolderAccount
  now : ℚ

/-- `total_supply` as computed at scanner.py lines 272-275: 0 when the supply
fetch failed, else the `amount` field defaulting to 0. -/
def total_supply_of (supply : Option SupplyInfo) : ℕ :=
  match supply with
  | some s => s.amount.getD 0
  | none => 0

/-- `dev_holdings` as computed at scanner.py lines 283-286: the largest single
holder's share of total supply in percent, 0 when there is no holder data or
the total supply is 0. -/
def derive_dev_holdings (accounts : List HolderAccount) (total_supply : ℕ) : ℚ :=
  match accounts with
  | [] => 0
  | a :: _ =>
    if 0 < total_supply then ((a.amount.getD 0 : ℚ) / (total_supply : ℚ)) * 100 else 0

/-- `age_hours` as computed at scanner.py lines 289-296: derived from a numeric
`updatedAt` timestamp in the on-chain metadata, else the default 48.0. -/
def derive_age_hours (on_chain : JVal) (now : ℚ) : ℚ :=
  match getKey on_chain "updatedAt" with
  | some (.jnum ts) => (now - ts) / 3600
  | _ => 48

/-- The text of a flag (scanner.py lines 327-351).  Each constructor stands for
one f-string template together with the numeric value interpolated into it. -/
inductive FlagText where
  | excellent_holder_base (holders : ℕ)
  | strong_holder_base (holders : ℕ)
  | low_holder_count (holders : ℕ)
  | sweet_spot_age (age_hours : ℚ)
  | very_new_token (age_hours : ℚ)
  | older_token (age_hours : ℚ)
  | high_dev_holdings (pct : ℚ)
  | moderate_dev_holdings (pct : ℚ)
  | low_dev_holdings (pct : ℚ)
  | great_liquidity (liquidity : ℚ)
  | low_liquidity (liquidity : ℚ)
deriving DecidableEq

/-- A flag: category string (the `"type"` key) plus text. -/
structure Flag where
  type : String
  text : FlagText
deriving DecidableEq

/-- The holder-count flag rule (scanner.py lines 327-332). -/
def holder_flags (holder_count : ℕ) : List Flag :=
  if THRESHOLDS_excellent_holders ≤ holder_count then
    [⟨"opportunity", .excellent_holder_base holder_count⟩]
  else if THRESHOLDS_good_holders ≤ holder_count then
    [⟨"opportunity", .strong_holder_base holder_count⟩]
  else if holder_count < THRESHOLDS_min_holders then
    [⟨"high-risk", .low_holder_count holder_count⟩]
  else []

/-- The age flag rule (scanner.py lines 334-339). -/
def age_flags (age_hours : ℚ) : List Flag :=
  if THRESHOLDS_sweet_spot_age_min ≤ age_hours ∧ age_hours ≤ THRESHOLDS_sweet_spot_age_max then
    [⟨"opportunity", .sweet_spot_age age_hours⟩]
  else if age_hours < 12 then [⟨"medium-risk", .very_new_token age_hours⟩]
  else if 168 < age_hours then [⟨"medium-risk", .older_token age_hours⟩]
  else []

/-- The dev-holdings flag rule (scanner.py lines 341-346); note the
unconditional `else` arm. -/
def dev_flags (dev_holdings : ℚ) : List Flag :=
  if THRESHOLDS_dev_red_flag ≤ dev_holdings then
    [⟨"high-risk", .high_dev_holdings dev_holdings⟩]
  else if THRESHOLDS_dev_warning ≤ dev_holdings then
    [⟨"medium-risk", .moderate_dev_holdings dev_holdings⟩]
  else [⟨"low-risk", .low_dev_holdings dev_holdings⟩]

/-- The liquidity flag rule (scanner.py lines 348-351). -/
def liquidity_flags (liquidity : ℚ) : List Flag :=
  if THRESHOLDS_great_liquidity ≤ liquidity then
    [⟨"opportunity", .great_liquidity liquidity⟩]
  else if liquidity < THRESHOLDS_min_liquidity then
    [⟨"high-risk", .low_liquidity liquidity⟩]
  else []

/-- The full flag sequence, in the fixed evaluation order of scanner.py lines
325-351: holders, age, dev holdings, liquidity. -/
def generate_flags (holder_count : ℕ) (age_hours dev_holdings liquidity : ℚ) : List Flag :=
  holder_flags holder_count ++ age_flags age_hours ++ dev_flags dev_holdings
    ++ liquidity_flags liquidity

/-- The Token Record assembled at scanner.py lines 353-364. -/
structure TokenRecord where
  address : String
  name : String
  symbol : String
  score : ℚ
  risk_level : String
  holders : ℕ
  age_hours : ℚ
  dev_holdings : ℚ
  liquidity : ℚ
  flags : List Flag
deriving DecidableEq

/-- The record built by the body of `analyze_token` (scanner.py lines 270-364)
once the name/symbol filter has passed. -/
def build_record (mint name symbol : String) (metadata : JVal) (env : FetchEnv) : TokenRecord :=
  let total_supply := total_supply_of env.supply
  let holder_count := env.largest_accounts.length
  let dev_holdings := derive_dev_holdings env.largest_accounts total_supply
  let age_hours := derive_age_hours (on_chain_of metadata) env.now
  let liquidity : ℚ := (holder_count : ℚ) * 150
  let score := total_score (calculate_holder_score holder_count) (calculate_age_score age_hours)
    (calculate_dev_holdings_score dev_holdings) (calculate_liquidity_score liquidity)
  { address := mint
    name := name
    symbol := symbol
    score := pyRound2 score
    risk_level := risk_level_of score
    holders := holder_count
    age_hours := pyRound2 age_hours
    dev_holdings := pyRound2 dev_holdings
    liquidity := pyRound2 liquidity
    flags := generate_flags holder_count age_hours dev_holdings liquidity }

/-- `analyze_token` (scanner.py lines 243-364): `none` models the Python
`return None` ("no record"). -/
def analyze_token (mint : String) (metadata : JVal) (env : FetchEnv) : Option TokenRecord :=
  if truthy metadata && isObj metadata then
    let name := resolved_name (token_info_of metadata)
    let symbol := resolved_symbol (token_info_of metadata)
    if name = "Unknown" ∨ symbol = "" ∨ symbol = "???" then none
    else some (build_record mint name symbol metadata env)
  else none

/-- A parsed transaction as consumed by `extract_token_mints` (scanner.py lines
93-118): for each of the three substructure lists we keep, per entry, its
optional `"mint"` field (`none` when the key is absent or the entry is not a
dict). -/
structure Transaction where
  tokenTransfers : List (Option String)
  nativeTransfers : List (Option String)
  accountData : List (Option String)

/-- The mints one transaction contributes, in the scan order of scanner.py
lines 97-114: token transfers, then native transfers, then account data. -/
def transaction_mints (tx : Transaction) : List String :=
  tx.tokenTransfers.filterMap id ++ tx.nativeTransfers.filterMap id
    ++ tx.accountData.filterMap id

/-- `extract_token_mints` (scanner.py lines 93-118).  The Python code collects
into a `set`; this is modelled as first-occurrence deduplication (the spec
declares the resulting order irrelevant). -/
def extract_token_mints (transactions : List Transaction) : List String :=
  (transactions.map transaction_mints).flatten.eraseDups

/-- The external data consumed by one `scan_tokens` run: the DAS
asset-search response, the recent-transactions response, the batch metadata
mapping, and the per-mint supply/largest-accounts responses. -/
structure ScanEnv where
  das_assets : List String
  transactions : List Transaction
  metadata_map : List (String × JVal)
  supply_of : String → Option SupplyInfo
  accounts_of : String → List HolderAccount
  now : ℚ

/-- The `stats` object of a scan result (scanner.py lines 424-429). -/
structure ScanStats where
  total_scanned : ℕ
  opportunities : ℕ
  avg_score : ℚ
  total_liquidity : ℚ
deriving DecidableEq

/-- A scan result (scanner.py lines 422-431).  The `timestamp` field is the
external wall clock at return time and is not modelled. -/
structure ScanResult where
  stats : ScanStats
  tokens : List TokenRecord
deriving DecidableEq

/-- `create_empty_result` (scanner.py lines 434-445), minus the timestamp. -/
def create_empty_result : ScanResult :=
  { stats := { total_scanned := 0, opportunities := 0, avg_score := 0, total_liquidity := 0 }
    tokens := [] }

/-- The two-stage discovery of scanner.py lines 374-387.  Returns the
discovered mint list (`none` when the run short-circuits to an empty result)
together with whether the fallback transaction fetch was invoked. -/
def discover_mints (env : ScanEnv) : Option (List String) × Bool :=
  if env.das_assets.isEmpty then
    if env.transactions.isEmpty then (none, true)
    else
      let m := extract_token_mints env.transactions
      if m.isEmpty then (none, true) else (some m, true)
  else (some env.das_assets, false)

/-- The candidate list after the `mints = mints[:max_tokens]` truncation of
scanner.py line 390. -/
def resolved_mints (max_tokens : ℕ) (env : ScanEnv) : Option (List String) :=
  (discover_mints env).1.map (fun l => l.take max_tokens)

/-- The enrichment loop of scanner.py lines 396-402: per mint, look up its
metadata (defaulting to the empty blob) and run `analyze_token`, keeping the
produced records in discovery order. -/
def enrich (env : ScanEnv) (mints : List String) : List TokenRecord :=
  mints.filterMap (fun mint =>
    analyze_token mint ((env.metadata_map.lookup mint).getD (JVal.jobj []))
      ⟨env.supply_of mint, env.accounts_of mint, env.now⟩)

/-- The comparison `key=lambda t: t["score"], reverse=True` of scanner.py line
405, as the Boolean relation driving the stable sort. -/
def score_desc (a b : TokenRecord) : Bool := decide (b.score ≤ a.score)

/-- `scan_tokens` (scanner.py lines 367-431): discovery, truncation, batch
metadata lookup, per-mint enrichment, stable descending sort, stats. -/
def scan_tokens (max_tokens : ℕ) (env : ScanEnv) : ScanResult :=
  match resolved_mints max_tokens env with
  | none => create_empty_result
  | some mints =>
    let analyzed := (enrich env mints).mergeSort score_desc
    let total_scanned := analyzed.length
    let opportunities := (analyzed.filter (fun t => decide (70 ≤ t.score))).length
    let avg_score :=
      if 0 < total_scanned then (analyzed.map TokenRecord.score).sum / (total_scanned : ℚ)
      else 0
    let total_liquidity := (analyzed.map TokenRecord.liquidity).sum
    { stats :=
        { total_scanned := total_scanned
          opportunities := opportunities
          avg_score := pyRound2 avg_score
          total_liquidity := pyRound2 total_liquidity }
      tokens := analyzed }

/-- Concrete metadata blob with a valid name and symbol and no `updatedAt`. -/
def meta_good : JVal :=
  .jobj [("onChainMetadata", .jobj
    [("metadata", .jobj [("data", .jobj [("name", .jstr "Tok"), ("symbol", .jstr "TOK")])])])]

/-- Concrete metadata blob whose `data` object has no `name` key. -/
def meta_no_name : JVal :=
  .jobj [("onChainMetadata", .jobj
    [("metadata", .jobj [("data", .jobj [("symbol", .jstr "TOK")])])])]

/-- Concrete metadata blob carrying the literal placeholder symbol. -/
def meta_bad_symbol : JVal :=
  .jobj [("onChainMetadata", .jobj
    [("metadata", .jobj [("data", .jobj [("name", .jstr "Tok"), ("symbol", .jstr "???")])])])]

/-- Concrete metadata blob with a valid name/symbol and an `updatedAt` one day
in the future relative to scan time 0. -/
def meta_future : JVal :=
  .jobj [("onChainMetadata", .jobj
    [("metadata", .jobj [("data", .jobj [("name", .jstr "Tok"), ("symbol", .jstr "TOK")])]),
     ("updatedAt", .jnum 86400)])]

/-- Concrete fetch environment: failed supply fetch, no holder accounts. -/
def env_empty : FetchEnv := ⟨none, [], 0⟩

/-- Concrete fetch environment: zero supply amount, no holder accounts, scan
time 0. -/
def env_now0 : FetchEnv := ⟨some ⟨some 0, some 9⟩, [], 0⟩

/-- Concrete scan environment whose primary DAS search succeeded. -/
def scan_env_primary : ScanEnv := ⟨["x", "y", "z"], [], [], fun _ => none, fun _ => [], 0⟩

/-- Concrete scan environment where both discovery strategies return nothing. -/
def scan_env_empty : ScanEnv := ⟨[], [], [], fun _ => none, fun _ => [], 0⟩

/-- Concrete scan environment producing two records with equal scores. -/
def scan_env_two : ScanEnv :=
  ⟨["a", "b"], [], [("a", meta_good), ("b", meta_good)], fun _ => none, fun _ => [], 0⟩

lemma hs_range (n : ℕ) : 0 ≤ calculate_holder_score n ∧ calculate_holder_score n ≤ 100 := by
  have h0 : (0:ℚ) ≤ (n:ℚ) := Nat.cast_nonneg n
  unfold calculate_holder_score THRESHOLDS_excellent_holders THRESHOLDS_good_holders
    THRESHOLDS_min_holders
  split_ifs with h1 h2 h3
  · norm_num
  · have c2 : (500:ℚ) ≤ (n:ℚ) := by exact_mod_cast h2
    have c1 : (n:ℚ) < 1000 := by exact_mod_cast Nat.lt_of_not_le h1
    push_cast
    constructor <;> linarith
  · have c3 : (100:ℚ) ≤ (n:ℚ) := by exact_mod_cast h3
    have c2 : (n:ℚ) < 500 := by exact_mod_cast Nat.lt_of_not_le h2
    push_cast
    constructor <;> linarith
  · have c3 : (n:ℚ) < 100 := by exact_mod_cast Nat.lt_of_not_le h3
    push_cast
    constructor <;> linarith

lemma hs_step (n : ℕ) : calculate_holder_score n ≤ calculate_holder_score (n+1) := by
  unfold calculate_holder_score THRESHOLDS_excellent_holders THRESHOLDS_good_holders
    THRESHOLDS_min_holders
  split_ifs <;>
    first
      | (exfalso; omega)
      | (qify at *; linarith [Nat.cast_nonneg (α := ℚ) n])

lemma hs_monotone : ∀ a b : ℕ, a ≤ b → calculate_holder_score a ≤ calculate_holder_score b :=
  fun _ _ h => monotone_nat_of_le_succ hs_step h

/-- C1: the aggregate score is exactly
`0.35·holderScore + 0.25·ageScore + 0.25·devHoldingsScore + 0.15·liquidityScore`,
the four weights sum to exactly 1, and whenever each sub-score lies in `[0, 100]`
so does the aggregate. -/
theorem claim_C1_aggregate_score :
    WEIGHTS_holders + WEIGHTS_age + WEIGHTS_dev_holdings + WEIGHTS_liquidity = 1
    ∧ (∀ a1 a2 a3 a4 : ℚ, total_score a1 a2 a3 a4
        = 35/100 * a1 + 25/100 * a2 + 25/100 * a3 + 15/100 * a4)
    ∧ (∀ a1 a2 a3 a4 : ℚ, 0 ≤ a1 → a1 ≤ 100 → 0 ≤ a2 → a2 ≤ 100 →
        0 ≤ a3 → a3 ≤ 100 → 0 ≤ a4 → a4 ≤ 100 →
        0 ≤ total_score a1 a2 a3 a4 ∧ total_score a1 a2 a3 a4 ≤ 100) := by
  refine ⟨by norm_num [WEIGHTS_holders, WEIGHTS_age, WEIGHTS_dev_holdings, WEIGHTS_liquidity],
    fun a1 a2 a3 a4 => by
      unfold total_score WEIGHTS_holders WEIGHTS_age WEIGHTS_dev_holdings WEIGHTS_liquidity
      ring,
    fun a1 a2 a3 a4 h1 h1' h2 h2' h3 h3' h4 h4' => ?_⟩
  unfold total_score WEIGHTS_holders WEIGHTS_age WEIGHTS_dev_holdings WEIGHTS_liquidity
  constructor <;> nlinarith

/-- Witness for C1 at the concrete sub-score vector (100, 100, 100, 100). -/
theorem claim_C1_aggregate_score_witness :
    0 ≤ total_score 100 100 100 100 ∧ total_score 100 100 100 100 ≤ 100 :=
  claim_C1_aggregate_score.2.2 100 100 100 100 (by norm_num) (by norm_num) (by norm_num)
    (by norm_num) (by norm_num) (by norm_num) (by norm_num) (by norm_num)

/-- C4: `calculate_holder_score` always lies in `[0, 100]`, takes the values
100, 70, 40, 0 at counts 1000, 500, 100, 0, is monotone non-decreasing, and on
`500 ≤ count < 1000` (just below the 1000 threshold) follows the lower
bracket's linear formula. -/
theorem claim_C4_holder_score :
    (∀ n : ℕ, 0 ≤ calculate_holder_score n ∧ calculate_holder_score n ≤ 100)
    ∧ calculate_holder_score 1000 = 100
    ∧ calculate_holder_score 500 = 70
    ∧ calculate_holder_score 100 = 40
    ∧ calculate_holder_score 0 = 0
    ∧ (∀ a b : ℕ, a ≤ b → calculate_holder_score a ≤ calculate_holder_score b)
    ∧ (∀ n : ℕ, 500 ≤ n → n < 1000 →
        calculate_holder_score n = 70 + ((n:ℚ) - 500) / 500 * 30) := by
  refine ⟨hs_range, by with_unfolding_all rfl, by with_unfolding_all rfl,
    by with_unfolding_all rfl, by with_unfolding_all rfl, hs_monotone, fun n hlo hhi => ?_⟩
  unfold calculate_holder_score THRESHOLDS_excellent_holders THRESHOLDS_good_holders
    THRESHOLDS_min_holders
  rw [if_neg (by omega), if_pos hlo]
  norm_num

/-- Witness for C4 at concrete counts 3 ≤ 700. -/
theorem claim_C4_holder_score_witness :
    calculate_holder_score 3 ≤ calculate_holder_score 700
    ∧ calculate_holder_score 700 = 70 + ((700:ℚ) - 500) / 500 * 30 :=
  ⟨claim_C4_holder_score.2.2.2.2.2.1 3 700 (by norm_num),
    claim_C4_holder_score.2.2.2.2.2.2 700 (by norm_num) (by norm_num)⟩

/-- C5: the age score is 100 on the whole sweet spot `[24, 72]`, 0 at 0 hours,
equals the linear ramp `hours/24·100` below 24, equals the floored decay
`max 0 (100 - (hours-72)/24·20)` above 72 (hence never negative there),
and takes the values 80 at 96 hours and exactly 0 at 192 hours. -/
theorem claim_C5_age_score :
    (∀ t : ℚ, 24 ≤ t → t ≤ 72 → calculate_age_score t = 100)
    ∧ calculate_age_score 24 = 100
    ∧ calculate_age_score 72 = 100
    ∧ calculate_age_score 0 = 0
    ∧ (∀ t : ℚ, t < 24 → calculate_age_score t = t / 24 * 100)
    ∧ (∀ t : ℚ, 72 < t → calculate_age_score t = max 0 (100 - (t - 72) / 24 * 20))
    ∧ calculate_age_score 96 = 80
    ∧ calculate_age_score 192 = 0
    ∧ (∀ t : ℚ, 72 < t → 0 ≤ calculate_age_score t) := by
  have sweet : ∀ t : ℚ, 24 ≤ t → t ≤ 72 → calculate_age_score t = 100 := by
    intro t h1 h2
    unfold calculate_age_score THRESHOLDS_sweet_spot_age_min THRESHOLDS_sweet_spot_age_max
    rw [if_pos ⟨h1, h2⟩]
  have ramp : ∀ t : ℚ, t < 24 → calculate_age_score t = t / 24 * 100 := by
    intro t h1
    unfold calculate_age_score THRESHOLDS_sweet_spot_age_min THRESHOLDS_sweet_spot_age_max
    rw [if_neg (by rintro ⟨h', -⟩; linarith), if_pos h1]
  have decay : ∀ t : ℚ, 72 < t → calculate_age_score t = max 0 (100 - (t - 72) / 24 * 20) := by
    intro t h1
    unfold calculate_age_score THRESHOLDS_sweet_spot_age_min THRESHOLDS_sweet_spot_age_max
    rw [if_neg (by rintro ⟨-, h'⟩; linarith), if_neg (by linarith)]
  refine ⟨sweet, sweet 24 (by norm_num) (by norm_num), sweet 72 (by norm_num) (by norm_num),
    by rw [ramp 0 (by norm_num)]; norm_num, ramp, decay,
    by rw [decay 96 (by norm_num)]; norm_num, by rw [decay 192 (by norm_num)]; norm_num,
    fun t h1 => by rw [decay t h1]; exact le_max_left 0 _⟩

/-- Witness for C5 at concrete hour values 30 (sweet spot), 6 (ramp), 200 (decay). -/
theorem claim_C5_age_score_witness :
    calculate_age_score 30 = 100
    ∧ calculate_age_score 6 = 6 / 24 * 100
    ∧ calculate_age_score 200 = max 0 (100 - (200 - 72) / 24 * 20)
    ∧ 0 ≤ calculate_age_score 200 :=
  ⟨claim_C5_age_score.1 30 (by norm_num) (by norm_num),
    claim_C5_age_score.2.2.2.2.1 6 (by norm_num),
    claim_C5_age_score.2.2.2.2.2.1 200 (by norm_num),
    claim_C5_age_score.2.2.2.2.2.2.2.2 200 (by norm_num)⟩

lemma age_range (t : ℚ) (ht : 0 ≤ t) :
    0 ≤ calculate_age_score t ∧ calculate_age_score t ≤ 100 := by
  unfold calculate_age_score THRESHOLDS_sweet_spot_age_min THRESHOLDS_sweet_spot_age_max
  split_ifs with h1 h2
  · norm_num
  · constructor <;> nlinarith
  · push_neg at h2
    have h3 : 72 < t := by
      by_contra hc
      push_neg at hc
      exact h1 ⟨h2, hc⟩
    constructor
    · exact le_max_left 0 _
    · rw [max_le_iff]
      constructor <;> linarith

lemma dev_range (p : ℚ) (hp : 0 ≤ p) :
    0 ≤ calculate_dev_holdings_score p ∧ calculate_dev_holdings_score p ≤ 100 := by
  unfold calculate_dev_holdings_score THRESHOLDS_dev_red_flag THRESHOLDS_dev_warning
  split_ifs with h1 h2 <;> push_neg at * <;> constructor <;> nlinarith

lemma liq_range (u : ℚ) (hu : 0 ≤ u) :
    0 ≤ calculate_liquidity_score u ∧ calculate_liquidity_score u ≤ 100 := by
  unfold calculate_liquidity_score THRESHOLDS_great_liquidity THRESHOLDS_good_liquidity
    THRESHOLDS_min_liquidity
  split_ifs with h1 h2 h3 <;> push_neg at * <;> constructor <;> nlinarith

lemma dev_holdings_nonneg (accounts : List HolderAccount) (ts : ℕ) :
    0 ≤ derive_dev_holdings accounts ts := by
  unfold derive_dev_holdings
  match accounts with
  | [] => norm_num
  | a :: rest =>
    dsimp only
    split_ifs with h
    · positivity
    · norm_num

lemma derive_dev_holdings_nil (n : ℕ) : derive_dev_holdings [] n = 0 := rfl

lemma build_record_holders (mint name symbol : String) (metadata : JVal) (env : FetchEnv) :
    (build_record mint name symbol metadata env).holders = env.largest_accounts.length := rfl

lemma build_record_dev_holdings (mint name symbol : String) (metadata : JVal) (env : FetchEnv) :
    (build_record mint name symbol metadata env).dev_holdings
      = pyRound2 (derive_dev_holdings env.largest_accounts (total_supply_of env.supply)) := rfl

lemma build_record_age_hours (mint name symbol : String) (metadata : JVal) (env : FetchEnv) :
    (build_record mint name symbol metadata env).age_hours
      = pyRound2 (derive_age_hours (on_chain_of metadata) env.now) := rfl

lemma build_record_liquidity (mint name symbol : String) (metadata : JVal) (env : FetchEnv) :
    (build_record mint name symbol metadata env).liquidity
      = pyRound2 ((env.largest_accounts.length : ℚ) * 150) := rfl

lemma build_record_score (mint name symbol : String) (metadata : JVal) (env : FetchEnv) :
    (build_record mint name symbol metadata env).score
      = pyRound2 (total_score (calculate_holder_score env.largest_accounts.length)
          (calculate_age_score (derive_age_hours (on_chain_of metadata) env.now))
          (calculate_dev_holdings_score
            (derive_dev_holdings env.largest_accounts (total_supply_of env.supply)))
          (calculate_liquidity_score ((env.largest_accounts.length : ℚ) * 150))) := rfl

lemma build_record_risk_level (mint name symbol : String) (metadata : JVal) (env : FetchEnv) :
    (build_record mint name symbol metadata env).risk_level
      = risk_level_of (total_score (calculate_holder_score env.largest_accounts.length)
          (calculate_age_score (derive_age_hours (on_chain_of metadata) env.now))
          (calculate_dev_holdings_score
            (derive_dev_holdings env.largest_accounts (total_supply_of env.supply)))
          (calculate_liquidity_score ((env.largest_accounts.length : ℚ) * 150))) := rfl

lemma build_record_flags (mint name symbol : String) (metadata : JVal) (env : FetchEnv) :
    (build_record mint name symbol metadata env).flags
      = generate_flags env.largest_accounts.length
          (derive_age_hours (on_chain_of metadata) env.now)
          (derive_dev_holdings env.largest_accounts (total_supply_of env.supply))
          ((env.largest_accounts.length : ℚ) * 150) := rfl

lemma analyze_token_some (mint : String) (metadata : JVal) (env : FetchEnv) (rec : TokenRecord)
    (h : analyze_token mint metadata env = some rec) :
    rec = build_record mint (resolved_name (token_info_of metadata))
      (resolved_symbol (token_info_of metadata)) metadata env := by
  unfold analyze_token at h
  by_cases hb : truthy metadata && isObj metadata
  · rw [if_pos hb] at h
    by_cases hs : resolved_name (token_info_of metadata) = "Unknown"
        ∨ resolved_symbol (token_info_of metadata) = ""
        ∨ resolved_symbol (token_info_of metadata) = "???"
    · rw [if_pos hs] at h
      exact absurd h (by simp)
    · rw [if_neg hs] at h
      exact (Option.some.inj h).symm
  · rw [if_neg hb] at h
    exact absurd h (by simp)

/-- C2: `analyze_token` yields no record on absent/malformed metadata, on a
resolved name `"Unknown"`, and on a resolved symbol that is empty or `"???"`;
every record it does return carries none of the placeholders. -/
theorem claim_C2_placeholder_filter (mint : String) (metadata : JVal) (env : FetchEnv) :
    ((truthy metadata && isObj metadata) = false → analyze_token mint metadata env = none)
    ∧ (resolved_name (token_info_of metadata) = "Unknown" →
        analyze_token mint metadata env = none)
    ∧ (resolved_symbol (token_info_of metadata) = "" ∨
        resolved_symbol (token_info_of metadata) = "???" →
        analyze_token mint metadata env = none)
    ∧ (∀ rec : TokenRecord, analyze_token mint metadata env = some rec →
        rec.name ≠ "Unknown" ∧ rec.symbol ≠ "" ∧ rec.symbol ≠ "???") := by
  refine ⟨fun h => ?_, fun h => ?_, fun h => ?_, fun rec h => ?_⟩
  · simp [analyze_token, h]
  · simp [analyze_token, h]
  · rcases h with h | h <;> simp [analyze_token, h]
  · have hrec := analyze_token_some mint metadata env rec h
    unfold analyze_token at h
    by_cases hb : truthy metadata && isObj metadata
    · rw [if_pos hb] at h
      by_cases hs : resolved_name (token_info_of metadata) = "Unknown"
          ∨ resolved_symbol (token_info_of metadata) = ""
          ∨ resolved_symbol (token_info_of metadata) = "???"
      · rw [if_pos hs] at h
        exact absurd h (by simp)
      · push_neg at hs
        obtain ⟨h1, h2, h3⟩ := hs
        subst hrec
        exact ⟨h1, h2, h3⟩
    · rw [if_neg hb] at h
      exact absurd h (by simp)

/-- Witness for C2: empty blob, missing name, placeholder symbol, and a valid
record, all at concrete inputs. -/
theorem claim_C2_placeholder_filter_witness :
    analyze_token "m1" (JVal.jobj []) env_empty = none
    ∧ analyze_token "m2" meta_no_name env_empty = none
    ∧ analyze_token "m3" meta_bad_symbol env_empty = none
    ∧ ((build_record "m4" (resolved_name (token_info_of meta_good))
          (resolved_symbol (token_info_of meta_good)) meta_good env_empty).name ≠ "Unknown"
        ∧ (build_record "m4" (resolved_name (token_info_of meta_good))
            (resolved_symbol (token_info_of meta_good)) meta_good env_empty).symbol ≠ ""
        ∧ (build_record "m4" (resolved_name (token_info_of meta_good))
            (resolved_symbol (token_info_of meta_good)) meta_good env_empty).symbol ≠ "???") :=
  ⟨(claim_C2_placeholder_filter "m1" (JVal.jobj []) env_empty).1 (by with_unfolding_all rfl),
    (claim_C2_placeholder_filter "m2" meta_no_name env_empty).2.1 (by with_unfolding_all rfl),
    (claim_C2_placeholder_filter "m3" meta_bad_symbol env_empty).2.2.1
      (Or.inr (by with_unfolding_all rfl)),
    (claim_C2_placeholder_filter "m4" meta_good env_empty).2.2.2 _ (by with_unfolding_all rfl)⟩

/-- C3 counterexample: with `updatedAt` one day in the future of the scan
time, `analyze_token` still produces a record, and the age sub-score feeding
its aggregate is negative, outside `[0, 100]`. -/
theorem claim_C3_counterexample :
    (analyze_token "FutureMint" meta_future env_now0).isSome = true
    ∧ calculate_age_score (derive_age_hours (on_chain_of meta_future) env_now0.now) < 0 := by
  constructor
  · with_unfolding_all rfl
  · have hd : derive_age_hours (on_chain_of meta_future) env_now0.now = -24 := by
      with_unfolding_all rfl
    rw [hd]
    norm_num [calculate_age_score, THRESHOLDS_sweet_spot_age_min, THRESHOLDS_sweet_spot_age_max]

/-- C3 (amended): for every record the enricher produces, if the derived age
is non-negative (the metadata update timestamp does not lie in the future),
then all four sub-scores used to build the aggregate lie in `[0, 100]`. -/
theorem claim_C3_subscore_range (mint : String) (metadata : JVal) (env : FetchEnv)
    (rec : TokenRecord)
    (h : analyze_token mint metadata env = some rec)
    (hage : 0 ≤ derive_age_hours (on_chain_of metadata) env.now) :
    (0 ≤ calculate_holder_score env.largest_accounts.length
      ∧ calculate_holder_score env.largest_accounts.length ≤ 100)
    ∧ (0 ≤ calculate_age_score (derive_age_hours (on_chain_of metadata) env.now)
      ∧ calculate_age_score (derive_age_hours (on_chain_of metadata) env.now) ≤ 100)
    ∧ (0 ≤ calculate_dev_holdings_score
        (derive_dev_holdings env.largest_accounts (total_supply_of env.supply))
      ∧ calculate_dev_holdings_score
          (derive_dev_holdings env.largest_accounts (total_supply_of env.supply)) ≤ 100)
    ∧ (0 ≤ calculate_liquidity_score ((env.largest_accounts.length : ℚ) * 150)
      ∧ calculate_liquidity_score ((env.largest_accounts.length : ℚ) * 150) ≤ 100) :=
  ⟨hs_range _, age_range _ hage, dev_range _ (dev_holdings_nonneg _ _),
    liq_range _ (by positivity)⟩

/-- Witness for C3 (amended) at the concrete valid metadata and empty fetches. -/
theorem claim_C3_subscore_range_witness :
    (0 ≤ calculate_holder_score env_empty.largest_accounts.length
      ∧ calculate_holder_score env_empty.largest_accounts.length ≤ 100)
    ∧ (0 ≤ calculate_age_score (derive_age_hours (on_chain_of meta_good) env_empty.now)
      ∧ calculate_age_score (derive_age_hours (on_chain_of meta_good) env_empty.now) ≤ 100)
    ∧ (0 ≤ calculate_dev_holdings_score
        (derive_dev_holdings env_empty.largest_accounts (total_supply_of env_empty.supply))
      ∧ calculate_dev_holdings_score
          (derive_dev_holdings env_empty.largest_accounts (total_supply_of env_empty.supply))
            ≤ 100)
    ∧ (0 ≤ calculate_liquidity_score ((env_empty.largest_accounts.length : ℚ) * 150)
      ∧ calculate_liquidity_score ((env_empty.largest_accounts.length : ℚ) * 150) ≤ 100) :=
  claim_C3_subscore_range "m" meta_good env_empty
    (build_record "m" (resolved_name (token_info_of meta_good))
      (resolved_symbol (token_info_of meta_good)) meta_good env_empty)
    (by with_unfolding_all rfl)
    (by rw [show derive_age_hours (on_chain_of meta_good) env_empty.now = 48 from by
          with_unfolding_all rfl]
        norm_num)

/-- C6: a record produced from an empty holder-accounts response, zero total
supply and metadata without `updatedAt` has holders 0, dev holdings 0, the
default age 48.0, liquidity 0, aggregate score exactly 50.0 and risk level
"medium". -/
theorem claim_C6_zero_data (mint : String) (metadata : JVal) (env : FetchEnv)
    (rec : TokenRecord)
    (h : analyze_token mint metadata env = some rec)
    (hacc : env.largest_accounts = [])
    (hsupply : total_supply_of env.supply = 0)
    (hupd : getKey (on_chain_of metadata) "updatedAt" = none) :
    rec.holders = 0 ∧ rec.dev_holdings = 0 ∧ rec.age_hours = 48
    ∧ rec.liquidity = 0 ∧ rec.score = 50 ∧ rec.risk_level = "medium" := by
  have hrec := analyze_token_some mint metadata env rec h
  subst hrec
  have hage : derive_age_hours (on_chain_of metadata) env.now = 48 := by
    unfold derive_age_hours
    rw [hupd]
  refine ⟨?_, ?_, ?_, ?_, ?_, ?_⟩
  · rw [build_record_holders, hacc]
    rfl
  · rw [build_record_dev_holdings, hacc, derive_dev_holdings_nil]
    with_unfolding_all rfl
  · rw [build_record_age_hours, hage]
    with_unfolding_all rfl
  · rw [build_record_liquidity, hacc]
    with_unfolding_all rfl
  · rw [build_record_score, hacc, hsupply, derive_dev_holdings_nil, hage]
    with_unfolding_all rfl
  · rw [build_record_risk_level, hacc, hsupply, derive_dev_holdings_nil, hage]
    with_unfolding_all rfl

/-- Witness for C6 at the concrete valid metadata and empty fetches. -/
theorem claim_C6_zero_data_witness :
    (build_record "m" (resolved_name (token_info_of meta_good))
        (resolved_symbol (token_info_of meta_good)) meta_good env_empty).holders = 0
    ∧ (build_record "m" (resolved_name (token_info_of meta_good))
        (resolved_symbol (token_info_of meta_good)) meta_good env_empty).dev_holdings = 0
    ∧ (build_record "m" (resolved_name (token_info_of meta_good))
        (resolved_symbol (token_info_of meta_good)) meta_good env_empty).age_hours = 48
    ∧ (build_record "m" (resolved_name (token_info_of meta_good))
        (resolved_symbol (token_info_of meta_good)) meta_good env_empty).liquidity = 0
    ∧ (build_record "m" (resolved_name (token_info_of meta_good))
        (resolved_symbol (token_info_of meta_good)) meta_good env_empty).score = 50
    ∧ (build_record "m" (resolved_name (token_info_of meta_good))
        (resolved_symbol (token_info_of meta_good)) meta_good env_empty).risk_level
          = "medium" :=
  claim_C6_zero_data "m" meta_good env_empty _ (by with_unfolding_all rfl) rfl rfl
    (by with_unfolding_all rfl)

lemma holder_flags_len (n : ℕ) : (holder_flags n).length ≤ 1 := by
  unfold holder_flags
  split_ifs <;> simp

lemma age_flags_len (t : ℚ) : (age_flags t).length ≤ 1 := by
  unfold age_flags
  split_ifs <;> simp

lemma dev_flags_len (p : ℚ) : (dev_flags p).length = 1 := by
  unfold dev_flags
  split_ifs <;> simp

lemma liquidity_flags_len (u : ℚ) : (liquidity_flags u).length ≤ 1 := by
  unfold liquidity_flags
  split_ifs <;> simp

lemma holder_flags_type (n : ℕ) (f : Flag) (hf : f ∈ holder_flags n) :
    f.type = "opportunity" ∨ f.type = "high-risk" := by
  unfold holder_flags at hf
  split_ifs at hf <;> simp_all

lemma age_flags_type (t : ℚ) (f : Flag) (hf : f ∈ age_flags t) :
    f.type = "opportunity" ∨ f.type = "medium-risk" := by
  unfold age_flags at hf
  split_ifs at hf <;> simp_all

lemma dev_flags_type (p : ℚ) (f : Flag) (hf : f ∈ dev_flags p) :
    f.type = "high-risk" ∨ f.type = "medium-risk" ∨ f.type = "low-risk" := by
  unfold dev_flags at hf
  split_ifs at hf <;> simp_all

lemma liquidity_flags_type (u : ℚ) (f : Flag) (hf : f ∈ liquidity_flags u) :
    f.type = "opportunity" ∨ f.type = "high-risk" := by
  unfold liquidity_flags at hf
  split_ifs at hf <;> simp_all

/-- C8: the flag sequence of every produced record is the concatenation, in
fixed order, of the holder, age, dev-holdings and liquidity rules; the first
two and the last contribute at most one flag each, the dev-holdings rule
exactly one, every category is one of the four known strings, and the
sequence has between 1 and 4 entries. -/
theorem claim_C8_flag_rules (mint : String) (metadata : JVal) (env : FetchEnv)
    (rec : TokenRecord) (h : analyze_token mint metadata env = some rec) :
    rec.flags = holder_flags env.largest_accounts.length
        ++ age_flags (derive_age_hours (on_chain_of metadata) env.now)
        ++ dev_flags (derive_dev_holdings env.largest_accounts (total_supply_of env.supply))
        ++ liquidity_flags ((env.largest_accounts.length : ℚ) * 150)
    ∧ (∀ n : ℕ, (holder_flags n).length ≤ 1)
    ∧ (∀ t : ℚ, (age_flags t).length ≤ 1)
    ∧ (∀ p : ℚ, (dev_flags p).length = 1)
    ∧ (∀ u : ℚ, (liquidity_flags u).length ≤ 1)
    ∧ (1 ≤ rec.flags.length ∧ rec.flags.length ≤ 4)
    ∧ (∀ f ∈ rec.flags, f.type = "opportunity" ∨ f.type = "low-risk"
        ∨ f.type = "medium-risk" ∨ f.type = "high-risk") := by
  have hrec := analyze_token_some mint metadata env rec h
  subst hrec
  have hfl : (build_record mint (resolved_name (token_info_of metadata))
      (resolved_symbol (token_info_of metadata)) metadata env).flags
      = holder_flags env.largest_accounts.length
        ++ age_flags (derive_age_hours (on_chain_of metadata) env.now)
        ++ dev_flags (derive_dev_holdings env.largest_accounts (total_supply_of env.supply))
        ++ liquidity_flags ((env.largest_accounts.length : ℚ) * 150) := by
    rw [build_record_flags]
    rfl
  refine ⟨hfl, holder_flags_len, age_flags_len, dev_flags_len, liquidity_flags_len, ?_, ?_⟩
  · rw [hfl]
    simp only [List.length_append]
    have h1 := holder_flags_len env.largest_accounts.length
    have h2 := age_flags_len (derive_age_hours (on_chain_of metadata) env.now)
    have h3 := dev_flags_len
      (derive_dev_holdings env.largest_accounts (total_supply_of env.supply))
    have h4 := liquidity_flags_len ((env.largest_accounts.length : ℚ) * 150)
    omega
  · intro f hf
    rw [hfl] at hf
    simp only [List.mem_append] at hf
    rcases hf with ((hf | hf) | hf) | hf
    · rcases holder_flags_type _ _ hf with h' | h' <;> tauto
    · rcases age_flags_type _ _ hf with h' | h' <;> tauto
    · rcases dev_flags_type _ _ hf with h' | h' | h' <;> tauto
    · rcases liquidity_flags_type _ _ hf with h' | h' <;> tauto


/-- Witness for C8 at the concrete valid metadata and empty fetches. -/
theorem claim_C8_flag_rules_witness :
    1 ≤ (build_record "m" (resolved_name (token_info_of meta_good))
        (resolved_symbol (token_info_of meta_good)) meta_good env_empty).flags.length
    ∧ (build_record "m" (resolved_name (token_info_of meta_good))
        (resolved_symbol (token_info_of meta_good)) meta_good env_empty).flags.length ≤ 4 :=
  (claim_C8_flag_rules "m" meta_good env_empty _ (by with_unfolding_all rfl)).2.2.2.2.2.1

/-- C7: whenever the primary asset-search strategy returns at least one
address, the fallback is never invoked and the pipeline output is exactly the
primary list truncated to at most `max_tokens` addresses. -/
theorem claim_C7_primary_short_circuit (max_tokens : ℕ) (env : ScanEnv)
    (h : env.das_assets ≠ []) :
    discover_mints env = (some env.das_assets, false)
    ∧ resolved_mints max_tokens env = some (env.das_assets.take max_tokens) := by
  have he : env.das_assets.isEmpty = false := by
    simpa [List.isEmpty_iff] using h
  constructor
  · simp [discover_mints, he]
  · simp [resolved_mints, discover_mints, he]

lemma analyze_token_empty_blob (mint : String) (env : FetchEnv) :
    analyze_token mint (JVal.jobj []) env = none := rfl

lemma pyRound2_zero : pyRound2 0 = 0 := by with_unfolding_all rfl

lemma enrich_of_empty_map (env : ScanEnv) (hm : env.metadata_map = []) (mints : List String) :
    enrich env mints = [] := by
  unfold enrich
  rw [List.filterMap_eq_nil_iff]
  intro mint _
  rw [hm]
  simp only [List.lookup_nil, Option.getD_none]
  exact analyze_token_empty_blob mint _

/-- C9: an empty candidate list at the discovery stage (both strategies
empty) or an empty metadata mapping yields the empty Scan Result with zeroed
stats and no tokens. -/
theorem claim_C9_empty_result (max_tokens : ℕ) (env : ScanEnv) :
    (env.das_assets = [] →
      env.transactions = [] ∨ extract_token_mints env.transactions = [] →
      scan_tokens max_tokens env = create_empty_result)
    ∧ (env.metadata_map = [] → scan_tokens max_tokens env = create_empty_result) := by
  constructor
  · intro h1 h2
    have hd : (discover_mints env).1 = none := by
      rcases h2 with h2 | h2 <;> simp [discover_mints, h1, h2]
    unfold scan_tokens
    rw [show resolved_mints max_tokens env = none from by simp [resolved_mints, hd]]
  · intro hm
    cases hr : resolved_mints max_tokens env with
    | none =>
      unfold scan_tokens
      rw [hr]
    | some mints =>
      unfold scan_tokens
      rw [hr]
      dsimp only
      rw [enrich_of_empty_map env hm mints]
      simp [create_empty_result, pyRound2_zero]


lemma score_desc_trans : ∀ a b c : TokenRecord, score_desc a b → score_desc b c → score_desc a c := by
  intro a b c h1 h2
  simp only [score_desc, decide_eq_true_eq] at *
  exact le_trans h2 h1

lemma score_desc_total : ∀ a b : TokenRecord, score_desc a b || score_desc b a := by
  intro a b
  simp only [score_desc, Bool.or_eq_true, decide_eq_true_eq]
  exact le_total b.score a.score

lemma mergeSort_score_desc_of_sorted (l : List TokenRecord)
    (hl : l.Pairwise (fun a b => b.score ≤ a.score)) :
    l.mergeSort score_desc = l :=
  List.mergeSort_of_sorted (hl.imp (fun h => by simpa [score_desc] using h))

lemma tokens_of_resolved (max_tokens : ℕ) (env : ScanEnv) (mints : List String)
    (hr : resolved_mints max_tokens env = some mints) :
    (scan_tokens max_tokens env).tokens = (enrich env mints).mergeSort score_desc := by
  unfold scan_tokens
  rw [hr]

lemma scan_tokens_sorted (max_tokens : ℕ) (env : ScanEnv) :
    (scan_tokens max_tokens env).tokens.Pairwise (fun a b => b.score ≤ a.score) := by
  cases hr : resolved_mints max_tokens env with
  | none =>
    unfold scan_tokens
    rw [hr]
    exact List.Pairwise.nil
  | some mints =>
    rw [tokens_of_resolved max_tokens env mints hr]
    exact (List.sorted_mergeSort score_desc_trans score_desc_total (enrich env mints)).imp
      (fun h => by simpa [score_desc] using h)

/-- C10: the tokens of every Scan Result are sorted by score descending; the
sort is stable (equal-score records keep the relative order of the enrichment
sequence); re-sorting an already score-sorted sequence by the same stable rule
is a no-op, in particular on the result itself. -/
theorem claim_C10_sort (max_tokens : ℕ) (env : ScanEnv) :
    (scan_tokens max_tokens env).tokens.Pairwise (fun a b => b.score ≤ a.score)
    ∧ (scan_tokens max_tokens env).tokens.mergeSort score_desc
        = (scan_tokens max_tokens env).tokens
    ∧ (∀ mints, resolved_mints max_tokens env = some mints →
        ∀ c : List TokenRecord, c.Sublist (enrich env mints) →
          c.Pairwise (fun a b => a.score = b.score) →
          c.Sublist (scan_tokens max_tokens env).tokens)
    ∧ (∀ l : List TokenRecord, l.Pairwise (fun a b => b.score ≤ a.score) →
        l.mergeSort score_desc = l) := by
  refine ⟨scan_tokens_sorted max_tokens env,
    mergeSort_score_desc_of_sorted _ (scan_tokens_sorted max_tokens env),
    fun mints hr c hsub hpair => ?_,
    mergeSort_score_desc_of_sorted⟩
  rw [tokens_of_resolved max_tokens env mints hr]
  exact List.sublist_mergeSort score_desc_trans score_desc_total
    (hpair.imp (fun h => by simp [score_desc, le_of_eq h.symm])) hsub


/-- Witness for C7 at a concrete successful primary search. -/
theorem claim_C7_witness :
    discover_mints scan_env_primary = (some scan_env_primary.das_assets, false)
    ∧ resolved_mints 2 scan_env_primary = some (scan_env_primary.das_assets.take 2) :=
  claim_C7_primary_short_circuit 2 scan_env_primary (by simp [scan_env_primary])

/-- Witness for C9 at concrete empty-discovery and empty-metadata runs. -/
theorem claim_C9_witness :
    scan_tokens 20 scan_env_empty = create_empty_result
    ∧ scan_tokens 2 scan_env_primary = create_empty_result :=
  ⟨(claim_C9_empty_result 20 scan_env_empty).1 rfl (Or.inl rfl),
    (claim_C9_empty_result 2 scan_env_primary).2 rfl⟩

/-- Witness for C10: a concrete run with two equal-score records, whose
enrichment order survives into the sorted result. -/
theorem claim_C10_witness :
    (enrich scan_env_two ["a", "b"]).Sublist (scan_tokens 20 scan_env_two).tokens :=
  (claim_C10_sort 20 scan_env_two).2.2.1 ["a", "b"] (by with_unfolding_all rfl)
    (enrich scan_env_two ["a", "b"]) (List.Sublist.refl _)
    (by
      rw [show enrich scan_env_two ["a", "b"]
          = [build_record "a" "Tok" "TOK" meta_good env_empty,
             build_record "b" "Tok" "TOK" meta_good env_empty] from by
        with_unfolding_all rfl]
      refine List.Pairwise.cons ?_ (List.pairwise_singleton _ _)
      intro b hb
      simp only [List.mem_singleton] at hb
      subst hb
      rfl)


end Scanner
